import Mathlib

/-!
Verification of the ProtoBase core (src/proto_base/common.py and
src/proto_db/common.py) against its natural-language specification.

The Python classes are shallowly embedded: objects become Lean structures,
in-place mutation becomes explicit state passing (a heap of atoms plus the
list of payloads pushed to the storage provider), Python exceptions become
an explicit error type, and the recursive save/attribute-lookup procedures
are given fuel so that every definition is a total, executable Lean
function.  The external indexable collections (Dictionary, HashDictionary)
are not part of the two source files; following the specification they are
modelled as persistent association maps whose insert returns a new map.
-/

namespace ProtoBase

/-- The Python exception kinds raised by the embedded code.
`validation` is ProtoValidationException, `corruption` is
ProtoCorruptionException; `keyError`, `valueError`, `attributeError`,
`typeError` and `recursionError` are the corresponding Python built-in
exceptions.  `fuelOut` is an artefact of the fuel-based embedding and
corresponds to no Python behaviour; theorems below quantify over enough
fuel that it never arises. -/
inductive PyErr where
  | validation
  | corruption
  | keyError
  | valueError
  | attributeError
  | typeError
  | recursionError
  | fuelOut
deriving DecidableEq, Repr

/-- AtomPointer from src/proto_db/common.py lines 23-29: the durable
location of a persisted atom, a pair of the writing transaction id and the
offset inside its log segment.  The 128-bit uuid is modelled as a Nat. -/
structure AtomPointer where
  transactionId : Nat
  offset : Nat
deriving DecidableEq, Repr

/-- The attribute values stored on embedded Python objects: None, strings,
integers, booleans, references (by heap index) to other Atom objects, and
AtomPointer objects. -/
inductive PyVal where
  | noneV
  | str (s : String)
  | int (n : Int)
  | bool (b : Bool)
  | atomRef (i : Nat)
  | ptr (p : AtomPointer)
deriving DecidableEq, Repr

/-- Python truthiness of the embedded values: None, the empty string, the
integer 0 and False are falsy; AtomPointer objects and atom references
are always truthy. -/
def pyTruthy : PyVal → Bool
  | PyVal.noneV => false
  | PyVal.str s => !s.isEmpty
  | PyVal.int n => !(n == 0)
  | PyVal.bool b => b
  | PyVal.atomRef _ => true
  | PyVal.ptr _ => true

/-- One field of the serialized (wire) form of an atom, following
Atom._dict_to_json in src/proto_db/common.py lines 324-373: primitives are
kept verbatim, Atom-valued attributes become a class-tagged pointer, and
None becomes a dedicated tag. -/
inductive JVal where
  | prim (v : PyVal)
  | atomTag (className : String) (p : AtomPointer)
  | noneTag
deriving DecidableEq, Repr

/-- Modelled from the spec: the string-keyed `Dictionary` collection is not
in the two source files (spec sections 1 and 6 treat the indexable
collections as external collaborators); section 9 fixes its semantics as a
persistent map whose insert returns a new map.  It is embedded as an
association list. -/
abbrev SDict (V : Type) := List (String × V)

/-- Dictionary.has: key membership. -/
def SDict.has {V : Type} (d : SDict V) (k : String) : Bool :=
  d.any (fun p => p.1 == k)

/-- Dictionary.get_at: the value stored under a key, if any. -/
def SDict.getAt {V : Type} (d : SDict V) (k : String) : Option V :=
  (d.find? (fun p => p.1 == k)).map Prod.snd

/-- Dictionary.set_at: persistent insert/replace, returning a new map and
leaving the receiver untouched. -/
def SDict.setAt {V : Type} (d : SDict V) (k : String) (v : V) : SDict V :=
  if d.has k then d.map (fun p => if p.1 == k then (k, v) else p)
  else d ++ [(k, v)]

/-- Dictionary.remove_key: persistent removal. -/
def SDict.removeKey {V : Type} (d : SDict V) (k : String) : SDict V :=
  d.filter (fun p => p.1 != k)

/-- Modelled from the spec: the integer-keyed `HashDictionary` collection
(the mutable-slot table), external to the two source files; like
`Dictionary` it is a persistent map whose insert returns a new map. -/
abbrev NDict (V : Type) := List (Nat × V)

/-- HashDictionary.get_at. -/
def NDict.getAt {V : Type} (d : NDict V) (k : Nat) : Option V :=
  (d.find? (fun p => p.1 == k)).map Prod.snd

/-- HashDictionary.set_at: persistent insert/replace returning a new map. -/
def NDict.setAt {V : Type} (d : NDict V) (k : Nat) (v : V) : NDict V :=
  if d.any (fun p => p.1 == k) then d.map (fun p => if p.1 == k then (k, v) else p)
  else d ++ [(k, v)]

/-- The in-memory state of one Atom object (src/proto_db/common.py lines
226-260): its class name (used for the wire `className` discriminator),
its `atom_pointer` (None until first saved), whether it has an owning
`transaction`, the `_saved` re-entrancy marker, the `_loaded` flag, and
its plain attribute dictionary (the entries of `__dict__` other than the
bookkeeping fields `transaction`, `atom_pointer`, `_loaded`, `_saved`). -/
structure AtomObj where
  className : String
  atomPointer : Option AtomPointer
  txn : Bool
  saved : Bool
  loaded : Bool
  attrs : List (String × PyVal)
deriving DecidableEq, Repr

/-- The mutable state threaded through a save pass: the heap of atom
objects (Python object identity becomes the list index) and the sequence
of serialized payloads pushed to the storage provider so far. -/
structure SaveState where
  heap : List AtomObj
  pushed : List (String × List (String × JVal))
deriving DecidableEq, Repr

/-- Replace the heap entry at index `i` (an in-place Python mutation). -/
def SaveState.setAtom (σ : SaveState) (i : Nat) (a : AtomObj) : SaveState :=
  { σ with heap := σ.heap.set i a }

/-- The first value bound to `name` in an attribute list, None if absent
(used for the `string` field of a Literal when serializing it). -/
def attrLookup (attrs : List (String × PyVal)) (name : String) : PyVal :=
  match attrs.find? (fun p => p.1 == name) with
  | some p => p.2
  | Option.none => PyVal.noneV

/-- The wire form of one attribute value, following _dict_to_json
(src/proto_db/common.py lines 324-373): an Atom-valued attribute is
encoded as its class name plus its (by now assigned) pointer; primitives
are kept verbatim; None gets the dedicated tag.  The pointer default
⟨0, 0⟩ is unreachable because children are saved before their parent is
encoded. -/
def jsonOfVal (σ : SaveState) : PyVal → JVal
  | PyVal.atomRef c =>
    match σ.heap.get? c with
    | some ca =>
      match ca.atomPointer with
      | some p => JVal.atomTag ca.className p
      | Option.none => JVal.atomTag ca.className ⟨0, 0⟩
    | Option.none => JVal.noneTag
  | PyVal.noneV => JVal.noneTag
  | v => JVal.prim v

mutual

/-- Atom._save, from src/proto_db/common.py lines 375-415, with explicit
fuel.  If the atom already has a pointer or is mid-save, nothing happens.
Otherwise, with no owning transaction a ProtoValidationException is
raised; with one, the `_saved` marker is set, every Atom-valued attribute
is saved first (inheriting the transaction when it has none), the
attributes are encoded (a Literal serializes as just its class name and
string), the payload is pushed to the storage provider — which assigns the
next offset — and the returned pointer is recorded on the atom. -/
def Atom.saveFuel : Nat → SaveState → Nat → Except PyErr SaveState
  | 0, _, _ => Except.error PyErr.fuelOut
  | fuel+1, σ, i =>
    match σ.heap.get? i with
    | Option.none => Except.error PyErr.attributeError
    | some a =>
      if a.atomPointer.isNone && !a.saved then
        if a.txn then
          let σ1 := σ.setAtom i { a with saved := true }
          match Atom.saveAttrsFuel fuel σ1 a.attrs with
          | Except.error e => Except.error e
          | Except.ok σ2 =>
            let fields :=
              if a.className == "Literal" then
                [("className", JVal.prim (PyVal.str a.className)),
                 ("string", jsonOfVal σ2 (attrLookup a.attrs "string"))]
              else
                ("className", JVal.prim (PyVal.str a.className)) ::
                  a.attrs.map (fun p => (p.1, jsonOfVal σ2 p.2))
            let ptr : AtomPointer := ⟨1, σ2.pushed.length⟩
            let σ3 : SaveState := { σ2 with pushed := σ2.pushed ++ [(a.className, fields)] }
            match σ3.heap.get? i with
            | some a2 => Except.ok (σ3.setAtom i { a2 with atomPointer := some ptr })
            | Option.none => Except.error PyErr.attributeError
        else
          Except.error PyErr.validation
      else
        Except.ok σ

/-- The attribute loop of Atom._save (src/proto_db/common.py lines
384-389): each Atom-valued attribute has its transaction set from the
parent when absent and is then saved recursively; other values are
skipped. -/
def Atom.saveAttrsFuel : Nat → SaveState → List (String × PyVal) → Except PyErr SaveState
  | _, σ, [] => Except.ok σ
  | 0, _, _ :: _ => Except.error PyErr.fuelOut
  | fuel+1, σ, (_, v) :: rest =>
    match v with
    | PyVal.atomRef c =>
      let σ1 :=
        match σ.heap.get? c with
        | some ca => if ca.txn then σ else σ.setAtom c { ca with txn := true }
        | Option.none => σ
      match Atom.saveFuel fuel σ1 c with
      | Except.error e => Except.error e
      | Except.ok σ2 => Atom.saveAttrsFuel fuel σ2 rest
    | _ => Atom.saveAttrsFuel fuel σ rest

end

/-- A storage provider view for loads: the decoded attribute payload
stored under each pointer (get_atom followed by _json_to_dict). -/
abbrev StoredAtoms := List (AtomPointer × List (String × PyVal))

/-- get_atom: the decoded attributes stored under a pointer. -/
def StoredAtoms.getAtom (store : StoredAtoms) (p : AtomPointer) : List (String × PyVal) :=
  match store.find? (fun q => q.1 == p) with
  | some q => q.2
  | Option.none => []

/-- Atom._load from src/proto_base/common.py lines 111-122.  If the atom
is not loaded and has no transaction, a ProtoValidationException is
raised.  Otherwise, when the pointer components are truthy the atom is
fetched from storage but the result of `.result()` is discarded — the
object attributes are not populated; a missing pointer makes the
`self.atom_pointer.transaction_id` access raise AttributeError.  Finally
`_loaded` is set. -/
def Atom.loadProtoBase (a : AtomObj) : Except PyErr AtomObj :=
  if !a.loaded then
    if !a.txn then Except.error PyErr.validation
    else
      match a.atomPointer with
      | Option.none => Except.error PyErr.attributeError
      | some _ => Except.ok { a with loaded := true }
  else Except.ok a

/-- DBObject.__getattr__ from src/proto_db/common.py lines 476-480,
fuel-indexed; the result `Option.none` means the recursion exceeds every
finite budget (a Python RecursionError).  The method body is:
`self._load(); if hasattr(self, name): return getattr(super(), name);
return None`.  For an object that is already loaded (or has no
transaction) `_load` does not change the attributes.  `hasattr(self,
name)` evaluates `getattr(self, name)`: ordinary lookup over the instance
dictionary and the class, and on failure this same `__getattr__`; it
treats AttributeError as False and any returned value — including None —
as True.  When hasattr is True, `getattr(super(), name)` consults only
class attributes, which ordinary lookup has already ruled out, so it
raises AttributeError. -/
def DBObject.dunderGetattr : Nat → SDict PyVal → String → Option (Except PyErr PyVal)
  | 0, _, _ => Option.none
  | fuel+1, o, n =>
    match SDict.getAt o n with
    | some _ => some (Except.error PyErr.attributeError)
    | Option.none =>
      match DBObject.dunderGetattr fuel o n with
      | Option.none => Option.none
      | some (Except.error _) => some (Except.ok PyVal.noneV)
      | some (Except.ok _) => some (Except.error PyErr.attributeError)

/-- A full Python attribute read `getattr(obj, n)` on a proto_db DBObject:
ordinary lookup over the resolvable attributes (instance dictionary and
class), falling back to DBObject.__getattr__ when it fails. -/
def DBObject.getattrFull (fuel : Nat) (o : SDict PyVal) (n : String) :
    Option (Except PyErr PyVal) :=
  match SDict.getAt o n with
  | some v => some (Except.ok v)
  | Option.none => DBObject.dunderGetattr fuel o n

mutual

/-- A full attribute read on a proto_db DBObject receiver, as executed at
runtime: ordinary lookup in the instance dictionary first (method names
and the class attribute `_saved` also resolve this way and never reach
the fallback), then DBObject.__getattr__ (src/proto_db/common.py lines
476-480): `self._load(); if hasattr(self, name): return getattr(super(),
name); return None`.  The `hasattr(self, name)` probe re-runs this very
read; it treats AttributeError as False and any returned value as True,
and a True answer makes `getattr(super(), name)` raise AttributeError
since super() consults only class attributes, which the failed ordinary
lookup has already ruled out.  `Option.none` means the recursion exceeds
every finite budget — a Python RecursionError.  (Unlike
`DBObject.dunderGetattr`, which embeds the __getattr__ body for an object
that is already loaded, this version threads the `_load` call through
`DBObject.loadD`, which matters when `_loaded` itself is not yet set.) -/
def DBObject.readAttrD : Nat → StoredAtoms → SDict PyVal → String →
    Option (Except PyErr PyVal)
  | 0, _, o, n =>
    match SDict.getAt o n with
    | some v => some (Except.ok v)
    | Option.none => Option.none
  | fuel+1, store, o, n =>
    match SDict.getAt o n with
    | some v => some (Except.ok v)
    | Option.none =>
      match DBObject.loadD fuel store o with
      | Option.none => Option.none
      | some (Except.error e) => some (Except.error e)
      | some (Except.ok o2) =>
        match DBObject.readAttrD fuel store o2 n with
        | Option.none => Option.none
        | some (Except.error _) => some (Except.ok PyVal.noneV)
        | some (Except.ok _) => some (Except.error PyErr.attributeError)

/-- Atom._load (src/proto_db/common.py lines 262-273) executed on a
DBObject receiver, statement by statement.  `if not self._loaded:` reads
`_loaded` through `DBObject.readAttrD` — on an object whose dictionary
does not hold `_loaded` yet, that read falls into __getattr__, whose
first statement is `self._load()` again.  When the object is unloaded,
`if self.transaction:` and the pointer-component truthiness tests decide
whether the stored payload is fetched and assigned attribute by
attribute; either way the final statement `self._loaded = True` is an
assignment on a DBObject and therefore runs `DBObject.setattrD`, whose
first statement is again `self._load()` — before `_loaded` has been
assigned. -/
def DBObject.loadD : Nat → StoredAtoms → SDict PyVal → Option (Except PyErr (SDict PyVal))
  | 0, _, _ => Option.none
  | fuel+1, store, o =>
    match DBObject.readAttrD fuel store o "_loaded" with
    | Option.none => Option.none
    | some (Except.error e) => some (Except.error e)
    | some (Except.ok loadedV) =>
      if pyTruthy loadedV then some (Except.ok o)
      else
        match DBObject.readAttrD fuel store o "transaction" with
        | Option.none => Option.none
        | some (Except.error e) => some (Except.error e)
        | some (Except.ok txnV) =>
          if pyTruthy txnV then
            match DBObject.readAttrD fuel store o "atom_pointer" with
            | Option.none => Option.none
            | some (Except.error e) => some (Except.error e)
            | some (Except.ok ptrV) =>
              match ptrV with
              | PyVal.ptr p =>
                if p.transactionId ≠ 0 ∧ p.offset ≠ 0 then
                  match DBObject.assignChainD fuel store o (store.getAtom p) with
                  | Option.none => Option.none
                  | some (Except.error e) => some (Except.error e)
                  | some (Except.ok o2) =>
                    DBObject.setattrD fuel store o2 "_loaded" (PyVal.bool true)
                else DBObject.setattrD fuel store o "_loaded" (PyVal.bool true)
              | _ => DBObject.setattrD fuel store o "_loaded" (PyVal.bool true)
          else DBObject.setattrD fuel store o "_loaded" (PyVal.bool true)

/-- DBObject.__setattr__ (src/proto_db/common.py lines 482-489) —
intercepting EVERY assignment on a DBObject, the constructor assignments
of Atom.__init__ included: `self._load(); if hasattr(self, key):
super().__setattr__(key, value); else: raise ProtoValidationException`.
The hasattr probe is a `DBObject.readAttrD`; a successful probe lets
`object.__setattr__` update the instance dictionary, a raised
AttributeError makes hasattr False and the validation error is raised. -/
def DBObject.setattrD : Nat → StoredAtoms → SDict PyVal → String → PyVal →
    Option (Except PyErr (SDict PyVal))
  | 0, _, _, _, _ => Option.none
  | fuel+1, store, o, key, v =>
    match DBObject.loadD fuel store o with
    | Option.none => Option.none
    | some (Except.error e) => some (Except.error e)
    | some (Except.ok o2) =>
      match DBObject.readAttrD fuel store o2 key with
      | Option.none => Option.none
      | some (Except.error _) => some (Except.error PyErr.validation)
      | some (Except.ok _) => some (Except.ok (SDict.setAt o2 key v))

/-- A sequence of Python assignments `self.<name> = <value>` on a DBObject
receiver, each routed through `DBObject.setattrD` (used for the
constructor assignments of Atom.__init__ / DBObject.__init__ and for the
attribute loop of Atom._load lines 271-272). -/
def DBObject.assignChainD : Nat → StoredAtoms → SDict PyVal →
    List (String × PyVal) → Option (Except PyErr (SDict PyVal))
  | _, _, o, [] => some (Except.ok o)
  | 0, _, _, _ :: _ => Option.none
  | fuel+1, store, o, (n, v) :: rest =>
    match DBObject.setattrD fuel store o n v with
    | Option.none => Option.none
    | some (Except.error e) => some (Except.error e)
    | some (Except.ok o2) => DBObject.assignChainD fuel store o2 rest

end

/-- The construction `DBObject()` (src/proto_db/common.py lines 469-474
and Atom.__init__ lines 255-260) on a still-empty instance dictionary:
`self.transaction = transaction`, `self.atom_pointer = atom_pointer`,
`self._loaded = False` (in Atom.__init__), and `self._loaded = False`
again (in DBObject.__init__; the kwargs loop is empty for a bare
DBObject() call).  Every one of these assignments is intercepted by
DBObject.__setattr__, whose `self._load()` reads the not-yet-assigned
`_loaded` and re-enters __getattr__ and _load without progress. -/
def DBObject.initD (fuel : Nat) (store : StoredAtoms) : Option (Except PyErr (SDict PyVal)) :=
  DBObject.assignChainD fuel store []
    [("transaction", PyVal.noneV), ("atom_pointer", PyVal.noneV),
     ("_loaded", PyVal.bool false), ("_loaded", PyVal.bool false)]

/-- DBObject._setattr from src/proto_db/common.py lines 491-496.  Its
FIRST statement is `new_object = DBObject()`, embedded by
`DBObject.initD`; only if that construction completed would the
`for name, value in self.__dict__` loop run — iterating the dictionary
KEYS, whose unpacking into (name, value) raises ValueError for any key
whose length is not two and otherwise recurses through setattr on the
fresh object. -/
def DBObject.setattrMethodD (fuel : Nat) (store : StoredAtoms) (o : SDict PyVal)
    (name : String) (value : PyVal) : Option (Except PyErr (SDict PyVal)) :=
  let _ := name
  let _ := value
  match DBObject.initD fuel store with
  | Option.none => Option.none
  | some (Except.error e) => some (Except.error e)
  | some (Except.ok _) =>
    match o with
    | [] => Option.none
    | (k, _) :: _ =>
      if k.length == 2 then Option.none
      else some (Except.error PyErr.valueError)

/-- A Literal object (src/proto_base/common.py lines 492-516): its string
value and its pointer once persisted. -/
structure LiteralObj where
  string : String
  atomPointer : Option AtomPointer
deriving DecidableEq, Repr

/-- The call `Literal(transaction=self, string=string)` made by
ObjectTransaction.get_literal (src/proto_base/common.py line 703).  The
statement `class AtomMetaclass:` at line 36 of src/proto_base/common.py
does not derive from `type`, so `class Atom(metaclass=AtomMetaclass)` —
and with it every class of the Atom family, Literal (lines 492-516)
included — binds the class name to an AtomMetaclass INSTANCE rather than
to a class.  Calling that instance raises `TypeError: 'AtomMetaclass'
object is not callable`; the body of Literal.__init__ (and the kwargs
loop of Atom.__init__ behind it, itself ill-formed) never executes. -/
def Literal.callProtoBase (s : String) : Except PyErr LiteralObj :=
  let _ := s
  Except.error PyErr.typeError

/-- Database.get_literal from src/proto_base/common.py lines 660-665:
consult the committed literal catalog of the current root; None when the
string is absent. -/
def Database.getLiteralDb (literalRoot : SDict LiteralObj) (s : String) : Option LiteralObj :=
  if SDict.has literalRoot s then SDict.getAt literalRoot s
  else Option.none

/-- ObjectTransaction.get_literal from src/proto_base/common.py lines
695-705: consult the pending `new_literals` table; if absent, the
committed catalog via the owning Database; if absent there too, construct
a new Literal (which raises, see `Literal.callProtoBase`), stage it and
return it.  The result pairs the updated pending table with the returned
literal. -/
def ObjectTransaction.getLiteral (newLiterals : SDict LiteralObj)
    (literalRoot : SDict LiteralObj) (s : String) :
    Except PyErr (SDict LiteralObj × LiteralObj) :=
  if SDict.has newLiterals s then
    match SDict.getAt newLiterals s with
    | some l => Except.ok (newLiterals, l)
    | Option.none => Except.error PyErr.keyError
  else
    match Database.getLiteralDb literalRoot s with
    | some l => Except.ok (newLiterals, l)
    | Option.none =>
      match Literal.callProtoBase s with
      | Except.error e => Except.error e
      | Except.ok l => Except.ok (SDict.setAt newLiterals s l, l)

/-- The root object held by the shared storage of an ObjectSpace
(src/proto_base/common.py): the database catalog `object_root` maps each
database name to its committed database root, itself a Dictionary
(modelled with abstract atom identifiers as values). -/
structure RootObj where
  objectRoot : SDict (SDict Nat)
deriving DecidableEq, Repr

/-- The shared storage state seen by ObjectSpace: the current root object
(None before any database is created). -/
structure SpaceState where
  currentRoot : Option RootObj
deriving DecidableEq, Repr

/-- ObjectSpace.commit_database from src/proto_base/common.py lines
609-621: read the current root; if the catalog has the database name,
replace its entry by `newRoot`, save the new catalog and set the storage
root; otherwise raise a ProtoValidationException.  A missing root object
makes the `root.object_root` access raise AttributeError. -/
def ObjectSpace.commitDatabase (s : SpaceState) (databaseName : String)
    (newRoot : SDict Nat) : Except PyErr SpaceState :=
  match s.currentRoot with
  | Option.none => Except.error PyErr.attributeError
  | some root =>
    if SDict.has root.objectRoot databaseName then
      let newRootObj : RootObj := { root with objectRoot := SDict.setAt root.objectRoot databaseName newRoot }
      Except.ok { s with currentRoot := some newRootObj }
    else Except.error PyErr.validation

/-- Database.new_branch_database from src/proto_base/common.py lines
644-658: read the current root and catalog, pick a fresh uuid-based name
(a parameter here), build a Database object under that name — without
ever entering it into the catalog — and then call
`commit_database(self.database_name, Dictionary())`, which replaces the
ORIGIN database entry with an empty Dictionary.  Returns the new state
and the branch name. -/
def Database.newBranchDatabase (s : SpaceState) (originName : String)
    (freshName : String) : Except PyErr (SpaceState × String) :=
  match s.currentRoot with
  | Option.none => Except.error PyErr.attributeError
  | some _ =>
    match ObjectSpace.commitDatabase s originName [] with
    | Except.error e => Except.error e
    | Except.ok s2 => Except.ok (s2, freshName)

/-- ObjectSpace.rename_database from src/proto_base/common.py lines
569-589.  When the old name exists, the catalog entry is moved to the new
name and the storage root is updated — and then control falls out of the
`if` blocks and reaches the `raise ProtoValidationException` that follows
them, which is NOT guarded by an else: the exception is raised on every
path.  The result pairs the storage state after the call with the raised
exception, if any. -/
def ObjectSpace.renameDatabase (s : SpaceState) (oldName newName : String) :
    SpaceState × Option PyErr :=
  match s.currentRoot with
  | Option.none => (s, some PyErr.validation)
  | some root =>
    if SDict.has root.objectRoot oldName then
      match SDict.getAt root.objectRoot oldName with
      | some databaseRoot =>
        let newCatalog :=
          SDict.setAt (SDict.removeKey root.objectRoot oldName) newName databaseRoot
        let newRootObj : RootObj := { root with objectRoot := newCatalog }
        ({ s with currentRoot := some newRootObj }, some PyErr.validation)
      | Option.none => (s, some PyErr.validation)
    else (s, some PyErr.validation)

/-- AtomMetaclass.__init__ from src/proto_db/common.py lines 34-44 (the
proto_base variant at lines 36-43 has the same registration logic): when
a class whose name is not the string "Atom" is defined, a name already
present in the global `atom_class_registry` raises a
ProtoValidationException, otherwise the class is registered under its
name; a class named "Atom" is skipped entirely.  Classes are modelled by
abstract identifiers. -/
def atomClassRegistryInit (reg : SDict Nat) (className : String) (cls : Nat) :
    Except PyErr (SDict Nat) :=
  if className == "Atom" then Except.ok reg
  else if SDict.has reg className then Except.error PyErr.validation
  else Except.ok (SDict.setAt reg className cls)

/-- The state of one ObjectTransaction that matters for commit
(src/proto_base/common.py lines 668-759): the locked/checked set
`read_lock_objects` mapping each object hash to the value this
transaction originally observed, and the working root. -/
structure TxnState where
  readLockObjects : NDict PyVal
  transactionRoot : SDict PyVal
deriving DecidableEq, Repr

/-- The committed storage state a commit could affect: the committed value
per mutable slot and the list of persisted atom payloads. -/
structure CommitStorage where
  committed : NDict PyVal
  pushed : List PyVal
deriving DecidableEq, Repr

/-- ObjectTransaction.commit from src/proto_base/common.py lines 729-739:
the method body consists solely of its docstring — the call performs no
comparison, raises nothing, persists nothing, and implicitly returns
None. -/
def ObjectTransaction.commit (s : CommitStorage) (t : TxnState) :
    Except PyErr (CommitStorage × PyVal) :=
  let _ := t
  Except.ok (s, PyVal.noneV)

/-- ObjectTransaction.get_mutable from src/proto_base/common.py line
755-756: read the working slot table. -/
def ObjectTransaction.getMutable (mutableObjects : NDict PyVal) (key : Nat) : Option PyVal :=
  NDict.getAt mutableObjects key

/-- ObjectTransaction.set_mutable from src/proto_base/common.py lines
758-759: `return self.mutable_objects.set_at(key, value)` — the persistent
set_at builds the updated table and returns it, but it is never assigned
back to `self.mutable_objects`; the transaction field is left as it was.
The result pairs the (unchanged) transaction slot table with the value
returned to the caller. -/
def ObjectTransaction.setMutable (mutableObjects : NDict PyVal) (key : Nat) (value : PyVal) :
    NDict PyVal × NDict PyVal :=
  (mutableObjects, NDict.setAt mutableObjects key value)

/-! Concrete objects used by the theorems below. -/

/-- A committed storage whose mutable slot 7 currently holds the integer 1. -/
def conflictStorage : CommitStorage := ⟨[(7, PyVal.int 1)], []⟩

/-- A transaction whose locked/checked set recorded the integer 0 as the
value originally observed for slot 7 — a genuine concurrency conflict
against `conflictStorage`. -/
def conflictTxn : TxnState := ⟨[(7, PyVal.int 0)], []⟩

/-- An already persisted atom: pointer assigned, attribute tree loaded. -/
def savedAtomW : AtomObj :=
  ⟨"DBObject", some ⟨1, 0⟩, true, false, true, [("status", PyVal.str "new")]⟩

/-- A one-atom heap holding `savedAtomW`, with nothing pushed yet. -/
def savedStateW : SaveState := ⟨[savedAtomW], []⟩

/-- A committed database root holding one entry. -/
def originRootDict : SDict Nat := [("orders", 1)]

/-- An object space whose catalog maps the database "db" to
`originRootDict`. -/
def branchState0 : SpaceState := ⟨some ⟨[("db", originRootDict)]⟩⟩

/-- The object space after branching from "db": the origin entry has been
replaced by an empty Dictionary and no entry for the branch exists. -/
def branchState1 : SpaceState := ⟨some ⟨[("db", [])]⟩⟩

/-- A literal staged in the pending table of a transaction. -/
def litPending : LiteralObj := ⟨"orders", Option.none⟩

/-- The same string as a literal already committed in the database. -/
def litCommitted : LiteralObj := ⟨"orders", some ⟨2, 3⟩⟩

/-- A persisted atom (valid pointer) that has no owning transaction and is
not yet loaded. -/
def persistedNoTxnAtom : AtomObj := ⟨"DBObject", some ⟨5, 9⟩, false, false, false, []⟩

/-- A freshly created atom (no pointer) with no owning transaction. -/
def newNoTxnAtom : AtomObj := ⟨"DBObject", Option.none, false, false, true, [("x", PyVal.int 1)]⟩

/-- A storage provider that does hold data for the pointer of
`persistedNoTxnAtom` and of `noTxnDBObject`. -/
def noTxnStore : StoredAtoms := [(⟨5, 9⟩, [("status", PyVal.str "new")])]

/-- The instance dictionary of a (hypothetical) proto_db DBObject that is
persisted (valid pointer), has no owning transaction, and is not yet
loaded — the receiver on which the claim requires a load to fail with a
validation error. -/
def noTxnDBObject : SDict PyVal :=
  [("transaction", PyVal.noneV), ("atom_pointer", PyVal.ptr ⟨5, 9⟩),
   ("_loaded", PyVal.bool false)]

/-- The resolvable attributes of a loaded DBObject carrying no user
attribute named "status": only the bookkeeping fields set by
Atom.__init__. -/
def sampleDBObject : SDict PyVal :=
  [("transaction", PyVal.noneV), ("atom_pointer", PyVal.noneV), ("_loaded", PyVal.bool true)]

/-- The object space used for the rename theorem: one database "a". -/
def renameState0 : SpaceState := ⟨some ⟨[("a", originRootDict)]⟩⟩

/-- The object space after renaming "a" to "b": the entry moved. -/
def renameState1 : SpaceState := ⟨some ⟨[("b", originRootDict)]⟩⟩

/-- An attribute name absent from a DBObject makes the
__getattr__/hasattr recursion consume any finite fuel without producing a
result: in Python, a RecursionError. -/
lemma dunderGetattr_absent (o : SDict PyVal) (n : String)
    (h : SDict.getAt o n = Option.none) :
    ∀ fuel, DBObject.dunderGetattr fuel o n = Option.none := by
  intro fuel
  induction fuel with
  | zero => rfl
  | succ k ih => simp [DBObject.dunderGetattr, h, ih]

/-- An attribute present in the instance dictionary is returned by the
full read at every fuel (ordinary lookup needs no recursion budget). -/
lemma readAttrD_hit (fuel : Nat) (store : StoredAtoms) (o : SDict PyVal)
    (n : String) (v : PyVal) (h : SDict.getAt o n = some v) :
    DBObject.readAttrD fuel store o n = some (Except.ok v) := by
  cases fuel <;> simp [DBObject.readAttrD, h]

/-- On an instance whose dictionary is still empty — the state in which
Atom.__init__ makes its first assignment — every attribute read, _load,
and __setattr__ exceeds any finite recursion budget: the `_loaded` read
inside _load falls into __getattr__, whose first statement is _load
again. -/
lemma emptyDBObject_diverges (store : StoredAtoms) :
    ∀ fuel, (∀ n, DBObject.readAttrD fuel store [] n = Option.none) ∧
      DBObject.loadD fuel store [] = Option.none ∧
      (∀ k v, DBObject.setattrD fuel store [] k v = Option.none) := by
  intro fuel
  induction fuel with
  | zero =>
    refine ⟨fun n => rfl, rfl, fun k v => rfl⟩
  | succ m ih =>
    refine ⟨fun n => ?_, ?_, fun k v => ?_⟩
    · simp [DBObject.readAttrD, SDict.getAt, ih.2.1]
    · simp [DBObject.loadD, ih.1]
    · simp [DBObject.setattrD, ih.2.1]

/-- No proto_db DBObject construction ever completes: the constructor
assignment chain diverges at its first assignment. -/
lemma dbobject_init_diverges (store : StoredAtoms) :
    ∀ fuel, DBObject.initD fuel store = Option.none := by
  intro fuel
  cases fuel with
  | zero => rfl
  | succ m =>
    simp [DBObject.initD, DBObject.assignChainD, (emptyDBObject_diverges store m).2.2]

/-- On the unloaded no-transaction DBObject, _load and the __setattr__ it
triggers for `self._loaded = True` call each other without progress, for
every finite recursion budget. -/
lemma noTxnDBObject_load_diverges :
    ∀ fuel, DBObject.loadD fuel noTxnStore noTxnDBObject = Option.none ∧
      DBObject.setattrD fuel noTxnStore noTxnDBObject "_loaded" (PyVal.bool true)
        = Option.none := by
  intro fuel
  induction fuel with
  | zero => exact ⟨rfl, rfl⟩
  | succ m ih =>
    refine ⟨?_, ?_⟩
    · have h1 : DBObject.readAttrD m noTxnStore noTxnDBObject "_loaded"
          = some (Except.ok (PyVal.bool false)) :=
        readAttrD_hit m noTxnStore noTxnDBObject "_loaded" (PyVal.bool false) rfl
      have h2 : DBObject.readAttrD m noTxnStore noTxnDBObject "transaction"
          = some (Except.ok PyVal.noneV) :=
        readAttrD_hit m noTxnStore noTxnDBObject "transaction" PyVal.noneV rfl
      simp [DBObject.loadD, h1, h2, pyTruthy, ih.2]
    · simp [DBObject.setattrD, ih.1]

/-- C1: the claim states that commit, for a non-empty locked/checked set,
compares each locked entry with the currently committed value and fails
with a concurrency-conflict error on any mismatch.  The code does not:
the body of ObjectTransaction.commit (src/proto_base/common.py lines
729-739) is only a docstring, so even for a transaction whose locked
entry for slot 7 disagrees with the committed value, commit returns None
without raising and without touching storage.  The commit docstring
itself promises the validation, so this is a bug in the code. -/
theorem commit_performs_no_conflict_validation :
    (∀ s t, ObjectTransaction.commit s t = Except.ok (s, PyVal.noneV)) ∧
    NDict.getAt conflictTxn.readLockObjects 7 ≠ NDict.getAt conflictStorage.committed 7 ∧
    ObjectTransaction.commit conflictStorage conflictTxn
      = Except.ok (conflictStorage, PyVal.noneV) :=
  ⟨fun _ _ => rfl, by decide, rfl⟩

/-- C2: saving an atom whose atom_pointer is already set is a no-op — the
guard of Atom._save (src/proto_db/common.py line 376) fails, so the
pointer is unchanged and nothing is pushed to the storage provider; in
particular a second _save after a successful first one changes nothing. -/
theorem atom_save_noop_when_pointer_set (σ : SaveState) (i : Nat) (a : AtomObj)
    (p : AtomPointer) (hget : σ.heap[i]? = some a) (hp : a.atomPointer = some p)
    (fuel : Nat) :
    Atom.saveFuel (fuel + 1) σ i = Except.ok σ := by
  simp [Atom.saveFuel, hget, hp]

/-- Witness for C2: the already saved atom `savedAtomW` at heap index 0. -/
theorem atom_save_noop_when_pointer_set_witness :
    Atom.saveFuel 5 savedStateW 0 = Except.ok savedStateW :=
  atom_save_noop_when_pointer_set savedStateW 0 savedAtomW ⟨1, 0⟩ rfl rfl 4

/-- C3: the claim states that new_branch_database returns a database whose
initial root equals the current committed root of the origin and leaves
the origin untouched.  The code (src/proto_base/common.py lines 644-658)
instead commits an EMPTY Dictionary under the ORIGIN name — destroying the
origin root — and never enters the branch name into the catalog at all:
starting from a catalog where "db" holds `originRootDict`, after branching
the catalog maps "db" to the empty root and has no "branch7" entry. -/
theorem new_branch_database_clobbers_origin_root :
    Database.newBranchDatabase branchState0 "db" "branch7"
      = Except.ok (branchState1, "branch7") ∧
    SDict.getAt ((branchState1.currentRoot.getD ⟨[]⟩).objectRoot) "db" ≠ some originRootDict ∧
    SDict.has ((branchState1.currentRoot.getD ⟨[]⟩).objectRoot) "branch7" = false :=
  ⟨rfl, by decide, rfl⟩

/-- C4: the claim states that DBObject._setattr returns a new object with
the one attribute replaced, leaving the receiver unchanged.  It never
returns anything: its first statement `new_object = DBObject()` cannot
complete, because the constructor assignment `self.transaction = ...`
runs DBObject.__setattr__ on the still-empty instance dictionary, whose
`self._load()` reads the not-yet-assigned `_loaded` and re-enters
__getattr__ and _load without progress — a RecursionError, for every
storage content, receiver, attribute name, value and recursion budget
(so no proto_db DBObject can be constructed at all, and the __dict__
unpacking loop of _setattr is never reached). -/
theorem dbobject_setattr_never_completes :
    (∀ fuel (store : StoredAtoms), DBObject.initD fuel store = Option.none) ∧
    (∀ fuel (store : StoredAtoms) (o : SDict PyVal) (name : String) (value : PyVal),
      DBObject.setattrMethodD fuel store o name value = Option.none) := by
  refine ⟨fun fuel store => dbobject_init_diverges store fuel,
          fun fuel store o name value => ?_⟩
  simp [DBObject.setattrMethodD, dbobject_init_diverges store fuel]

/-- C5: the claim states that get_literal, for a string absent from both
the pending table and the committed catalog, creates a new Literal,
stages it and returns it.  The lookup order of the code is as claimed
(pending table first, then the committed catalog), but the creation
branch crashes: proto_base AtomMetaclass is not a `type` subclass, so
Literal is a non-callable AtomMetaclass instance and
`Literal(transaction=self, string=string)` raises TypeError — a fresh
string makes get_literal raise instead of returning a staged literal,
and nothing is staged. -/
theorem get_literal_crashes_on_fresh_string :
    ObjectTransaction.getLiteral [] [] "orders" = Except.error PyErr.typeError ∧
    ObjectTransaction.getLiteral [("orders", litPending)] [("orders", litCommitted)] "orders"
      = Except.ok ([("orders", litPending)], litPending) ∧
    ObjectTransaction.getLiteral [] [("orders", litCommitted)] "orders"
      = Except.ok ([], litCommitted) :=
  ⟨rfl, rfl, rfl⟩

/-- C6: the claim states that after set_mutable(k, v) a get_mutable(k) in
the same transaction returns v.  The code (src/proto_base/common.py lines
758-759) computes the updated slot table with the persistent set_at but
only RETURNS it, never assigning it back to self.mutable_objects: the
transaction field is unchanged, and the subsequent get_mutable(1) on a
fresh transaction yields None instead of the written value 42. -/
theorem set_mutable_update_is_lost :
    (ObjectTransaction.setMutable [] 1 (PyVal.int 42)).1 = [] ∧
    (ObjectTransaction.setMutable [] 1 (PyVal.int 42)).2 = [(1, PyVal.int 42)] ∧
    ObjectTransaction.getMutable (ObjectTransaction.setMutable [] 1 (PyVal.int 42)).1 1
      = Option.none :=
  ⟨rfl, rfl, rfl⟩

/-- C7: operations requiring an actual load or save on an object with no
owning transaction.  The proto_base Atom._load source raises the
validation error the claim requires, and Atom._save raises it too; but a
required load on a proto_db DBObject does NOT produce a validation
error: _load skips the fetch (the data stored in `noTxnStore` under the
valid pointer is never read) and its final `self._loaded = True` runs
DBObject.__setattr__, which re-enters _load before `_loaded` is
assigned — the load exceeds every finite recursion budget, a
RecursionError instead of the required ProtoValidationException. -/
theorem atom_without_transaction_behaviour :
    Atom.loadProtoBase persistedNoTxnAtom = Except.error PyErr.validation ∧
    (∀ fuel, DBObject.loadD fuel noTxnStore noTxnDBObject = Option.none) ∧
    (∀ fuel, Atom.saveFuel (fuel + 1) ⟨[newNoTxnAtom], []⟩ 0
      = Except.error PyErr.validation) :=
  ⟨rfl, fun fuel => (noTxnDBObject_load_diverges fuel).1, fun _ => rfl⟩

/-- C8: the claim (and the DBObject docstring) states that reading an
unknown attribute returns None and never raises.  In the code
(src/proto_db/common.py lines 476-480) the `hasattr(self, name)` probe
inside __getattr__ re-enters __getattr__ for the very name whose lookup
just failed, so the read consumes any finite recursion budget — a Python
RecursionError — instead of returning None: for every fuel, the embedded
lookup of the absent name "status" on a loaded DBObject fails to produce
a result. -/
theorem dbobject_unknown_attribute_read_diverges :
    ∀ fuel, DBObject.getattrFull fuel sampleDBObject "status" = Option.none := by
  intro fuel
  have h : SDict.getAt sampleDBObject "status" = Option.none := rfl
  simp [DBObject.getattrFull, h, dunderGetattr_absent sampleDBObject "status" h fuel]

/-- C9: the claim states rename_database completes successfully when the
old name exists and raises exactly when it does not.  In the code
(src/proto_base/common.py lines 569-589) the `raise` after the rename
block is not guarded by an else, so a successful rename still raises: from
a catalog holding "a", rename to "b" moves the entry (new state maps "b"
to the old root and drops "a") AND raises the validation error. -/
theorem rename_database_raises_after_renaming :
    ObjectSpace.renameDatabase renameState0 "a" "b" = (renameState1, some PyErr.validation) :=
  rfl

/-- C10 counterexample: the claim states that defining two distinct Atom
subclasses with the same class name always raises a validation error.
For the class name "Atom" it does not: the metaclass skips registration
for that name entirely, so two distinct classes named "Atom" are both
accepted silently and neither is registered. -/
theorem atom_registry_duplicate_atom_name_accepted :
    atomClassRegistryInit [] "Atom" 1 = Except.ok [] ∧
    atomClassRegistryInit [] "Atom" 2 = Except.ok [] :=
  ⟨rfl, rfl⟩

/-- C10 amended: for every class name other than "Atom", registering a
name already present in the atom class registry raises a validation
error, so the registry maps each registered name to exactly one class. -/
theorem atom_registry_duplicate_name_rejected (reg : SDict Nat) (className : String)
    (cls : Nat) (hname : className ≠ "Atom") (hmem : SDict.has reg className = true) :
    atomClassRegistryInit reg className cls = Except.error PyErr.validation := by
  have h1 : (className == "Atom") = false := by
    simp [hname]
  simp [atomClassRegistryInit, h1, hmem]

/-- Witness for the amended C10: a second registration of the name
"DBObject". -/
theorem atom_registry_duplicate_name_rejected_witness :
    atomClassRegistryInit [("DBObject", 1)] "DBObject" 2 = Except.error PyErr.validation :=
  atom_registry_duplicate_name_rejected [("DBObject", 1)] "DBObject" 2
    (by decide) (by decide)

end ProtoBase
